import Mathlib

/-!
Shallow embedding of the geofenced check-in validation and aggregation core of
the `atten` repository.

Source correspondence:
* `haversine`, `is_within_radius`    — `apps/attendance/models.py`, `AttendanceGroup.is_within_radius`
  and the identical local `haversine` inside `CheckIn.save`.
* `Period`, `grace_start`, `is_within_checkin_time` — `apps/attendance/models.py`, `Period`.
  Times of day are modelled as minutes since midnight (`0 ≤ t < 1440` for real inputs);
  `grace_start` reproduces the wrap-around of
  `(datetime.combine(today, start_time) - timedelta(minutes=grace)).time()`.
* `checkin_save`                     — `apps/attendance/models.py`, `CheckIn.save` override:
  the truthiness guard on `latitude`/`longitude`/`attendance_group`, distance computation,
  and the status assignment.
* `find_applicable_period`           — the period-resolution loop in `apps/attendance/views.py`
  `check_in` (filter `is_active`, iterate in the model `Meta.ordering` order `start_time`,
  pick the first period applicable today and within its check-in window).
* `check_in`, `check_out`            — the POST branches of the same views, modelled as pure
  transitions on the list of stored `CheckIn` rows.
* `seed_checkin_status`, `seed_checkout_status` — the status computations in
  `apps/attendance/management/commands/seed_checkins.py`.
* `pair_hours`, `today_hours`        — the hours aggregation loop in `apps/dashboard/views.py`
  (`for i in range(0, len(checkins) - 1, 2)` over the timestamp-ordered day list).
* `spec_total_hours` is NOT from the source: it is the daily aggregation algorithm as worded
  in the specification (pair each valid IN with the next valid OUT, invalid events ignored),
  kept only to compare the source's aggregation against the spec's wording.
-/

namespace Atten

/-- Great-circle distance in meters between two points given in decimal degrees,
as the `haversine` helper defined identically in `AttendanceGroup.is_within_radius`
and `CheckIn.save`: convert the four coordinates to radians, take
`a = sin(dlat/2)^2 + cos(lat1) cos(lat2) sin(dlon/2)^2`, `c = 2 asin(sqrt a)` and
multiply by the Earth radius 6 371 000 m. -/
noncomputable def haversine (lon1 lat1 lon2 lat2 : ℝ) : ℝ :=
  6371000 *
    (2 * Real.arcsin (Real.sqrt
      (Real.sin ((lat2 * Real.pi / 180 - lat1 * Real.pi / 180) / 2) ^ 2 +
        Real.cos (lat1 * Real.pi / 180) * Real.cos (lat2 * Real.pi / 180) *
          Real.sin ((lon2 * Real.pi / 180 - lon1 * Real.pi / 180) / 2) ^ 2)))

/-- Check-in record type, `CheckIn.CheckInType`. -/
inductive CType where
  | IN
  | OUT
  deriving DecidableEq

/-- Check-in record status, `CheckIn.CheckInStatus`. -/
inductive CStatus where
  | ON_TIME
  | LATE
  | EARLY
  | INVALID_LOCATION
  | INVALID_TIME
  deriving DecidableEq

/-- A shift window, `Period` in `apps/attendance/models.py`. `start_time` and
`end_time` are minutes since midnight; `weekdays` is the parsed `weekday_list`
(1 = Monday .. 7 = Sunday). -/
structure Period where
  start_time : ℕ
  end_time : ℕ
  weekdays : List ℕ
  late_checkin_grace_minutes : ℕ
  early_checkout_grace_minutes : ℕ
  is_active : Bool
  deriving DecidableEq

/-- Start of the check-in window of a period: `start_time` minus the late grace,
wrapped to a time of day exactly as
`(datetime.combine(today, start_time) - timedelta(minutes=grace)).time()` does. -/
def grace_start (p : Period) : ℕ :=
  (((p.start_time : ℤ) - (p.late_checkin_grace_minutes : ℤ)) % 1440).toNat

/-- Membership of a time of day in the check-in window, `Period.is_within_checkin_time`:
`grace_start <= t <= end_time`. -/
def is_within_checkin_time (p : Period) (t : ℕ) : Prop :=
  grace_start p ≤ t ∧ t ≤ p.end_time

instance (p : Period) (t : ℕ) : Decidable (is_within_checkin_time p t) := by
  unfold is_within_checkin_time
  exact inferInstance

/-- An attendance group, `AttendanceGroup`: geofence center, radius in meters and
its configured periods (`group.periods`). Coordinates are the decimal values of the
`DecimalField`s, modelled as rationals. -/
structure AttendanceGroup where
  id : ℕ
  latitude : ℚ
  longitude : ℚ
  radius : ℕ
  periods : List Period

/-- Distance of a reported position from the group's center, as computed by both
`AttendanceGroup.is_within_radius` and `CheckIn.save`:
`haversine(group.longitude, group.latitude, user_lon, user_lat)`. -/
noncomputable def distance_from_location (g : AttendanceGroup) (user_lat user_lon : ℚ) : ℝ :=
  haversine (g.longitude : ℝ) (g.latitude : ℝ) (user_lon : ℝ) (user_lat : ℝ)

/-- Geofence containment test, `AttendanceGroup.is_within_radius`:
distance from center at most `radius`. -/
def is_within_radius (g : AttendanceGroup) (user_lat user_lon : ℚ) : Prop :=
  distance_from_location g user_lat user_lon ≤ (g.radius : ℝ)

/-- A stored `CheckIn` row: the fields the validation and aggregation logic reads.
`day` is the calendar date of `timestamp`, `time_of_day` its time in minutes since
midnight, and `distance` the persisted `distance_from_location`. -/
structure CheckInEvent where
  id : ℕ
  employee : ℕ
  group : AttendanceGroup
  day : ℕ
  time_of_day : ℕ
  latitude : ℚ
  longitude : ℚ
  type : CType
  status : CStatus
  period : Option Period
  distance : Option ℝ

/-- Message of the `RelatedObjectDoesNotExist` exception Django raises when the
guard in `CheckIn.save` evaluates `self.attendance_group` on a row whose
non-nullable foreign key is unset. -/
def relatedObjectError : String := "CheckIn has no attendance_group."

/-- Message of the `AttributeError` raised by `self.timestamp.time()` in
`CheckIn.save` when the classification branch runs on a row whose `timestamp`
(an `auto_now_add` field, filled only inside `super().save()`) is still unset. -/
def timestampNoneError : String := "NoneType object has no attribute time"

open Classical in
/-- The `CheckIn.save` override in `apps/attendance/models.py`, including its
failure modes. The guard `self.latitude and self.longitude and self.attendance_group`
evaluates left to right: a zero coordinate short-circuits and skips everything,
but with both coordinates nonzero an unset group reference raises
`RelatedObjectDoesNotExist` (a non-nullable foreign key). Otherwise the hook sets
the distance, then: outside the radius gives INVALID_LOCATION; with a period
attached it calls `is_within_checkin_time(self.timestamp)` — `timestamp` is the
value of `self.timestamp` when the hook runs: `none` on rows the views create
(`auto_now_add` fills the field only inside `super().save()`), the passed value on
seeder rows — which defaults to the current time `now_t` when given `none`; when
that window test fails the branch classifies from `self.timestamp.time()`, which
raises `AttributeError` on a `none` timestamp and otherwise gives INVALID_TIME past
`end_time`, LATE past `start_time`, EARLY otherwise; in every remaining case the
incoming status `status0` (the model default ON_TIME on create) is kept. Returns
the pair (`distance_from_location`, `status`) after the hook, or the exception. -/
noncomputable def checkin_save (group : Option AttendanceGroup) (period : Option Period)
    (latitude longitude : ℚ) (timestamp : Option ℕ) (now_t : ℕ)
    (distance0 : Option ℝ) (status0 : CStatus) : Except String (Option ℝ × CStatus) :=
  if latitude = 0 ∨ longitude = 0 then Except.ok (distance0, status0)
  else
    match group with
    | none => Except.error relatedObjectError
    | some g =>
      let d := distance_from_location g latitude longitude
      if ¬ is_within_radius g latitude longitude then
        Except.ok (some d, CStatus.INVALID_LOCATION)
      else
        match period with
        | some p =>
          if ¬ is_within_checkin_time p (timestamp.getD now_t) then
            match timestamp with
            | none => Except.error timestampNoneError
            | some ts =>
              if p.end_time < ts then Except.ok (some d, CStatus.INVALID_TIME)
              else if p.start_time < ts then Except.ok (some d, CStatus.LATE)
              else Except.ok (some d, CStatus.EARLY)
          else Except.ok (some d, status0)
        | none => Except.ok (some d, status0)

/-- Ordering of periods by `start_time`, the effective `Meta.ordering` of `Period`
for the periods of a single group. -/
def periodLE (p q : Period) : Prop := p.start_time ≤ q.start_time

instance : DecidableRel periodLE :=
  fun p q => inferInstanceAs (Decidable (p.start_time ≤ q.start_time))

instance : IsTotal Period periodLE :=
  ⟨fun a b => Nat.le_total a.start_time b.start_time⟩

instance : IsTrans Period periodLE :=
  ⟨fun _ _ _ h1 h2 => Nat.le_trans h1 h2⟩

/-- The period-resolution loop of the `check_in` view: iterate over
`group.periods.filter(is_active=True)` in `start_time` order (the model ordering)
and return the first period that is applicable on today's ISO weekday and whose
check-in window contains the current time of day; `none` when no period matches. -/
def find_applicable_period (periods : List Period) (weekday t : ℕ) : Option Period :=
  (List.insertionSort periodLE (periods.filter (fun p => p.is_active))).find?
    (fun p => decide (weekday ∈ p.weekdays ∧ is_within_checkin_time p t))

/-- Result of a POST to the check-in / check-out views: either the new list of
stored rows, or the JSON error response (no row created). -/
inductive ViewResult where
  | ok (events : List CheckInEvent)
  | error (message : String)

open Classical in
/-- The POST branch of the `check_in` view in `apps/attendance/views.py`:
reject when the reported position is outside the group's radius; reject when a
CHECK_IN row for the same employee, group and calendar day already exists;
otherwise resolve the applicable period and create the row, running the
`CheckIn.save` hook on it with the `auto_now_add` timestamp still unset — an
exception from the hook is caught by the view's `except` and answered as
`Check-in failed: ...` with no row created. `today` / `weekday` / `t` are the
date, ISO weekday
and time of day of `timezone.now()`, and `newId` the fresh primary key. -/
noncomputable def check_in (events : List CheckInEvent) (user : ℕ) (g : AttendanceGroup)
    (latitude longitude : ℚ) (today weekday t newId : ℕ) : ViewResult :=
  if ¬ is_within_radius g latitude longitude then
    ViewResult.error "You are not within the valid check-in area."
  else if ∃ e ∈ events, e.employee = user ∧ e.group.id = g.id ∧ e.day = today ∧
      e.type = CType.IN then
    ViewResult.error "You have already checked in today."
  else
    let period := find_applicable_period g.periods weekday t
    match checkin_save (some g) period latitude longitude none t none CStatus.ON_TIME with
    | Except.error msg => ViewResult.error ("Check-in failed: " ++ msg)
    | Except.ok saved =>
      ViewResult.ok (events ++
        [⟨newId, user, g, today, t, latitude, longitude, CType.IN, saved.2, period, saved.1⟩])

/-- The POST branch of the `check_out` view in `apps/attendance/views.py`:
look up the referenced original check-in by primary key, owner and type CHECK_IN
only (no date, geofence or duplicate-checkout condition), then attempt to create
a CHECK_OUT row that copies the original group and period. The `CheckIn.save`
hook runs on the new row with its `timestamp` still unset (`auto_now_add`), so
when the hook raises — the copied period attached and the current time outside
its check-in window — the view's `except` answers `Check-out failed: ...` and no
row is created. -/
noncomputable def check_out (events : List CheckInEvent) (user checkin_id : ℕ)
    (latitude longitude : ℚ) (today t newId : ℕ) : ViewResult :=
  match events.find?
      (fun e => decide (e.id = checkin_id ∧ e.employee = user ∧ e.type = CType.IN)) with
  | none => ViewResult.error "Check-out failed: No CheckIn matches the given query."
  | some original =>
    match checkin_save (some original.group) original.period latitude longitude none t
        none CStatus.ON_TIME with
    | Except.error msg => ViewResult.error ("Check-out failed: " ++ msg)
    | Except.ok saved =>
      ViewResult.ok (events ++
        [⟨newId, user, original.group, today, t, latitude, longitude, CType.OUT, saved.2,
          original.period, saved.1⟩])

/-- Check-in status assignment of the seeding command
(`seed_checkins.py`): `variation_minutes` is the signed offset of the generated
check-in from `period.start_time`. LATE past the grace, EARLY when more than 5
minutes early, ON_TIME otherwise. -/
def seed_checkin_status (late_grace : ℕ) (variation_minutes : ℤ) : CStatus :=
  if variation_minutes > (late_grace : ℤ) then CStatus.LATE
  else if variation_minutes < -5 then CStatus.EARLY
  else CStatus.ON_TIME

/-- Check-out status assignment of the seeding command:
`variation_minutes` is the signed offset from `period.end_time`. EARLY beyond the
early-checkout grace, LATE more than 60 minutes past the end, ON_TIME otherwise. -/
def seed_checkout_status (early_grace : ℕ) (variation_minutes : ℤ) : CStatus :=
  if variation_minutes < -(early_grace : ℤ) then CStatus.EARLY
  else if variation_minutes > 60 then CStatus.LATE
  else CStatus.ON_TIME

/-- An event row as the dashboard aggregation reads it: type, outcome status and
timestamp in seconds (the aggregation subtracts timestamps and divides by 3600). -/
structure DashEvent where
  type : CType
  status : CStatus
  timestamp : ℚ
  deriving DecidableEq

/-- Body of the dashboard hours loop
(`for i in range(0, len(checkins) - 1, 2)` in `apps/dashboard/views.py`):
walk the timestamp-ordered list two at a time and add the pair's duration in
hours whenever the first element has type IN and the second type OUT. -/
def pair_hours : List DashEvent → ℚ
  | a :: b :: rest =>
    (if a.type = CType.IN ∧ b.type = CType.OUT then (b.timestamp - a.timestamp) / 3600 else 0)
      + pair_hours rest
  | _ => 0

/-- Hours worked for one day as the dashboard computes them: the pairing loop is
run only when the day has at least two events (`if today_checkins.count() >= 2`). -/
def today_hours (events : List DashEvent) : ℚ :=
  if 2 ≤ events.length then pair_hours events else 0

/-- Validity of an event in the sense of the specification's aggregation:
status is neither INVALID_LOCATION nor INVALID_TIME. -/
def valid_event (e : DashEvent) : Prop :=
  e.status ≠ CStatus.INVALID_LOCATION ∧ e.status ≠ CStatus.INVALID_TIME

instance (e : DashEvent) : Decidable (valid_event e) := by
  unfold valid_event
  exact inferInstance

/-- Modelled from the spec: helper of `spec_total_hours`, carrying the pending
unmatched valid IN while scanning the day's events in timestamp order. Invalid
events are skipped and never anchor a pair; a valid OUT closes the pending IN. -/
def spec_pair_go : Option DashEvent → List DashEvent → ℚ
  | _, [] => 0
  | pending, e :: rest =>
    if ¬ valid_event e then spec_pair_go pending rest
    else
      match pending, e.type with
      | some i, CType.OUT => (e.timestamp - i.timestamp) / 3600 + spec_pair_go none rest
      | some i, CType.IN => spec_pair_go (some i) rest
      | none, CType.IN => spec_pair_go (some e) rest
      | none, CType.OUT => spec_pair_go none rest

/-- Modelled from the spec: the specification's `DailyAggregator` hours total —
pair each valid IN greedily with the next valid OUT, events with outcome
INVALID_LOCATION or INVALID_TIME contribute zero hours and do not anchor a pair,
and an unmatched trailing IN contributes zero. Used only to compare the source's
aggregation against the spec's wording. -/
def spec_total_hours (events : List DashEvent) : ℚ := spec_pair_go none events

/-- Contribution of the i-th positional pair (indices `2*i` and `2*i + 1`) of a
day's event list to the dashboard hours total. -/
def pairTerm (events : List DashEvent) (i : ℕ) : ℚ :=
  match events.get? (2 * i), events.get? (2 * i + 1) with
  | some a, some b =>
    if a.type = CType.IN ∧ b.type = CType.OUT then (b.timestamp - a.timestamp) / 3600 else 0
  | _, _ => 0

/-- Number of stored CHECK_IN rows for one (employee, group, calendar day) key. -/
def countIN (events : List CheckInEvent) (emp gid day : ℕ) : ℕ :=
  (events.filter
    (fun e => decide (e.employee = emp ∧ e.group.id = gid ∧ e.day = day ∧
      e.type = CType.IN))).length

/-- Invariant: at most one CHECK_IN row per (employee, group, calendar day). -/
def at_most_one_checkin (events : List CheckInEvent) : Prop :=
  ∀ emp gid day, countIN events emp gid day ≤ 1

/-- Sample period 09:00-17:00, Monday-Friday, 15 min grace each way. -/
def samplePeriod : Period := ⟨540, 1020, [1, 2, 3, 4, 5], 15, 15, true⟩

/-- Sample period 10:00-17:00, Monday-Friday, used as a later-starting competitor. -/
def samplePeriod2 : Period := ⟨600, 1020, [1, 2, 3, 4, 5], 15, 15, true⟩

/-- Sample group centered at latitude 3, longitude 4 with a 100 m radius. -/
def sampleGroup : AttendanceGroup := ⟨1, 3, 4, 100, []⟩

/-- Group centered on the equator at longitude 50; a report from latitude 90 at
the same longitude is about a quarter of the Earth circumference away. -/
def farGroup : AttendanceGroup := ⟨2, 0, 50, 100, []⟩

/-- Second copy of the far-away group, with its own primary key. -/
def farGroup2 : AttendanceGroup := ⟨3, 0, 50, 100, []⟩

/-- Group centered near the north pole, far away from (0, 7). -/
def remoteGroup : AttendanceGroup := ⟨4, 90, 7, 100, []⟩

/-- A stored CHECK_IN row for employee 1 in `sampleGroup` on day 3. -/
def sampleEventIN : CheckInEvent :=
  ⟨1, 1, sampleGroup, 3, 550, 3, 4, CType.IN, CStatus.ON_TIME, none, none⟩

/-- A stored CHECK_IN row for employee 1 in `sampleGroup` on day 0 (an old date),
associated with the 09:00-17:00 period. -/
def oldEventWithPeriod : CheckInEvent :=
  ⟨1, 1, sampleGroup, 0, 550, 3, 4, CType.IN, CStatus.ON_TIME, some samplePeriod, none⟩

/-- Dashboard event: a CHECK_IN flagged INVALID_LOCATION at timestamp 0 s. -/
def dashInvalidIN : DashEvent := ⟨CType.IN, CStatus.INVALID_LOCATION, 0⟩

/-- Dashboard event: an on-time CHECK_OUT one hour later. -/
def dashValidOUT : DashEvent := ⟨CType.OUT, CStatus.ON_TIME, 3600⟩

/-- Group at (3, 4) with a 100 m radius and no configured periods. -/
def noPeriodGroup : AttendanceGroup := ⟨5, 3, 4, 100, []⟩

/-! Helper lemmas about the haversine distance and the geofence test. -/

lemma sin_half_sub_sq (u v : ℝ) :
    Real.sin ((u - v) / 2) ^ 2 = Real.sin ((v - u) / 2) ^ 2 := by
  rw [show (u - v) / 2 = -((v - u) / 2) by ring, Real.sin_neg]
  ring

lemma haversine_self (lon lat : ℝ) : haversine lon lat lon lat = 0 := by
  unfold haversine
  simp

lemma haversine_symm (lon1 lat1 lon2 lat2 : ℝ) :
    haversine lon1 lat1 lon2 lat2 = haversine lon2 lat2 lon1 lat1 := by
  unfold haversine
  rw [sin_half_sub_sq (lat2 * Real.pi / 180) (lat1 * Real.pi / 180),
    sin_half_sub_sq (lon2 * Real.pi / 180) (lon1 * Real.pi / 180),
    mul_comm (Real.cos (lat1 * Real.pi / 180)) (Real.cos (lat2 * Real.pi / 180))]

lemma haversine_equator_pole (lon : ℝ) : 6371000 ≤ haversine lon 0 lon 90 := by
  unfold haversine
  have e1 : (90 * Real.pi / 180 - 0 * Real.pi / 180) / 2 = Real.pi / 4 := by ring
  have e2 : (lon * Real.pi / 180 - lon * Real.pi / 180) / 2 = 0 := by ring
  rw [e1, e2, Real.sin_zero, Real.sin_pi_div_four]
  have e3 : (Real.sqrt 2 / 2) ^ 2 +
      Real.cos (0 * Real.pi / 180) * Real.cos (90 * Real.pi / 180) * 0 ^ 2 = 1 / 2 := by
    rw [div_pow, Real.sq_sqrt (by norm_num : (0:ℝ) ≤ 2)]
    ring
  rw [e3]
  have h1 : (1 / 2 : ℝ) ≤ Real.sqrt (1 / 2) := by
    have hs := Real.sqrt_le_sqrt (show ((1:ℝ) / 2) ^ 2 ≤ 1 / 2 by norm_num)
    rwa [Real.sqrt_sq (by norm_num : (0:ℝ) ≤ 1 / 2)] at hs
  have h2 : Real.sqrt (1 / 2) ≤ 1 := by
    have hs := Real.sqrt_le_sqrt (show ((1:ℝ) / 2) ≤ 1 by norm_num)
    rwa [Real.sqrt_one] at hs
  have h3 : Real.sqrt (1 / 2) < Real.arcsin (Real.sqrt (1 / 2)) := by
    have hpos : 0 < Real.arcsin (Real.sqrt (1 / 2)) :=
      Real.arcsin_pos.mpr (Real.sqrt_pos.mpr (by norm_num))
    have hs := Real.sin_lt hpos
    rwa [Real.sin_arcsin (by linarith [Real.sqrt_nonneg (1 / 2 : ℝ)]) h2] at hs
  have h4 : (1:ℝ) ≤ 2 * Real.arcsin (Real.sqrt (1 / 2)) := by linarith
  have h5 := mul_le_mul_of_nonneg_left h4 (show (0:ℝ) ≤ 6371000 by norm_num)
  linarith

lemma self_within (g : AttendanceGroup) : is_within_radius g g.latitude g.longitude := by
  unfold is_within_radius distance_from_location
  rw [haversine_self]
  exact Nat.cast_nonneg g.radius

lemma pole_not_within (gid r : ℕ) (lonq : ℚ) (ps : List Period) (hr : r ≤ 5000) :
    ¬ is_within_radius ⟨gid, 0, lonq, r, ps⟩ 90 lonq := by
  simp only [is_within_radius, distance_from_location]
  intro h
  push_cast at h
  have h1 := haversine_equator_pole (lonq : ℝ)
  have h2 : ((r : ℕ) : ℝ) ≤ 5000 := by exact_mod_cast hr
  linarith

/-- C8: the haversine distance used by the geofence is zero between a coordinate
and itself, and is symmetric in its two coordinates (with the fixed Earth radius
6 371 000 m). -/
theorem c8_theorem :
    (∀ lon lat : ℝ, haversine lon lat lon lat = 0) ∧
    (∀ lon1 lat1 lon2 lat2 : ℝ,
      haversine lon1 lat1 lon2 lat2 = haversine lon2 lat2 lon1 lat1) :=
  ⟨haversine_self, haversine_symm⟩

/-- C9 (amended): when a check-in row is saved with latitude 0 or longitude 0, the
truthiness guard short-circuits and skips all validation: no distance is computed
(the stored distance keeps its incoming value, unset on create) and the status
keeps its prior value (the model default ON_TIME on create), even when the
reported coordinate lies outside the geofence and even when the group reference
is absent (the guard never reaches it). An absent attendance-group reference with
both coordinates nonzero, however, raises `RelatedObjectDoesNotExist` when the
guard evaluates `self.attendance_group`, so the save fails instead of keeping the
prior status. -/
theorem c9_theorem :
    (∀ (group : Option AttendanceGroup) (period : Option Period) (latitude longitude : ℚ)
        (timestamp : Option ℕ) (now_t : ℕ) (d0 : Option ℝ) (s0 : CStatus),
        latitude = 0 ∨ longitude = 0 →
        checkin_save group period latitude longitude timestamp now_t d0 s0 =
          Except.ok (d0, s0)) ∧
    (∀ (period : Option Period) (latitude longitude : ℚ) (timestamp : Option ℕ)
        (now_t : ℕ) (d0 : Option ℝ) (s0 : CStatus), latitude ≠ 0 → longitude ≠ 0 →
        checkin_save none period latitude longitude timestamp now_t d0 s0 =
          Except.error relatedObjectError) := by
  constructor
  · intro group period latitude longitude timestamp now_t d0 s0 h
    simp only [checkin_save]
    rw [if_pos h]
  · intro period latitude longitude timestamp now_t d0 s0 h1 h2
    have h0 : ¬ (latitude = 0 ∨ longitude = 0) := by tauto
    simp only [checkin_save]
    rw [if_neg h0]

/-- Witness for C9: a zero latitude reported against the remote group (whose
geofence is thousands of kilometers away) is saved with no distance and the
default ON_TIME status, while an absent group with nonzero coordinates makes the
save raise. -/
theorem c9_witness :
    ((0:ℚ) = 0 ∨ (7:ℚ) = 0) ∧
    checkin_save (some remoteGroup) none 0 7 none 600 none CStatus.ON_TIME =
      Except.ok (none, CStatus.ON_TIME) ∧
    checkin_save none none 3 4 none 600 none CStatus.ON_TIME =
      Except.error relatedObjectError :=
  ⟨Or.inl rfl,
    c9_theorem.1 (some remoteGroup) none 0 7 none 600 none CStatus.ON_TIME (Or.inl rfl),
    c9_theorem.2 none 3 4 none 600 none CStatus.ON_TIME (by norm_num) (by norm_num)⟩

/-- Counterexample to C9 as stated: with both coordinates nonzero (3, 4) and the
attendance-group reference absent, the save hook raises `RelatedObjectDoesNotExist`
instead of leaving the distance unset and the status at its prior ON_TIME value. -/
theorem c9_counterexample :
    checkin_save none none 3 4 none 600 none CStatus.ON_TIME =
        Except.error relatedObjectError ∧
      checkin_save none none 3 4 none 600 none CStatus.ON_TIME ≠
        Except.ok (none, CStatus.ON_TIME) := by
  have h0 : ¬ ((3:ℚ) = 0 ∨ (4:ℚ) = 0) := by norm_num
  have herr : checkin_save none none 3 4 none 600 none CStatus.ON_TIME =
      Except.error relatedObjectError := by
    simp only [checkin_save]
    rw [if_neg h0]
  refine ⟨herr, ?_⟩
  intro hok
  rw [herr] at hok
  exact Except.noConfusion hok

/-- C1 (amended): the claimed IN rule — LATE iff the offset from start exceeds the
late grace, EARLY iff it is more than 5 minutes early, ON_TIME otherwise — is the
status computation of the seeding command only. On the save path (a valid
location and an attached period), an IN anywhere inside the grace-adjusted window
`[start_time - grace, end_time]` keeps the incoming default status (so 09:20
against a 09:00 window with 15 min grace is ON_TIME, not LATE); for rows that
carry a timestamp when the hook runs (seeder-created rows), a time past
`end_time` becomes INVALID_TIME and a time outside the window but not past the
end becomes LATE after `start_time` and EARLY otherwise. View-created INs always
fall in the keep arm, because a period is only attached when the current time is
inside its window. -/
theorem c1_theorem :
    (∀ (grace : ℕ) (v : ℤ),
        (seed_checkin_status grace v = CStatus.LATE ↔ (grace : ℤ) < v) ∧
        (seed_checkin_status grace v = CStatus.EARLY ↔ v ≤ (grace : ℤ) ∧ v < -5) ∧
        (seed_checkin_status grace v = CStatus.ON_TIME ↔ -5 ≤ v ∧ v ≤ (grace : ℤ))) ∧
    (∀ (g : AttendanceGroup) (p : Period) (latitude longitude : ℚ) (t now_t : ℕ)
        (s0 : CStatus),
        latitude ≠ 0 → longitude ≠ 0 → is_within_radius g latitude longitude →
        ((is_within_checkin_time p t →
            checkin_save (some g) (some p) latitude longitude (some t) now_t none s0 =
              Except.ok (some (distance_from_location g latitude longitude), s0)) ∧
          (p.end_time < t →
            checkin_save (some g) (some p) latitude longitude (some t) now_t none s0 =
              Except.ok (some (distance_from_location g latitude longitude),
                CStatus.INVALID_TIME)) ∧
          (¬ is_within_checkin_time p t → t ≤ p.end_time → p.start_time < t →
            checkin_save (some g) (some p) latitude longitude (some t) now_t none s0 =
              Except.ok (some (distance_from_location g latitude longitude),
                CStatus.LATE)) ∧
          (¬ is_within_checkin_time p t → t ≤ p.end_time → t ≤ p.start_time →
            checkin_save (some g) (some p) latitude longitude (some t) now_t none s0 =
              Except.ok (some (distance_from_location g latitude longitude),
                CStatus.EARLY)))) := by
  constructor
  · intro grace v
    refine ⟨?_, ?_, ?_⟩ <;>
      · unfold seed_checkin_status
        split_ifs with h1 h2 <;> simp_all
  · intro g p latitude longitude t now_t s0 hlat hlon hw
    have h0 : ¬ (latitude = 0 ∨ longitude = 0) := by tauto
    refine ⟨?_, ?_, ?_, ?_⟩
    · intro hin
      simp [checkin_save, h0, hw, hin]
    · intro hend
      have hnot : ¬ is_within_checkin_time p t := by
        unfold is_within_checkin_time
        omega
      simp [checkin_save, h0, hw, hnot, hend]
    · intro hnot hle hstart
      have hnotend : ¬ p.end_time < t := by omega
      simp [checkin_save, h0, hw, hnot, hnotend, hstart]
    · intro hnot hle hstart
      have hnotend : ¬ p.end_time < t := by omega
      have hnotstart : ¬ p.start_time < t := by omega
      simp [checkin_save, h0, hw, hnot, hnotend, hnotstart]

/-- Witness for C1: the seeder marks an IN 20 minutes after start LATE (grace 15),
while the save hook keeps ON_TIME for the same 09:20 submission (minute 560)
against the 09:00-17:00 period, inside the geofence of `sampleGroup`. -/
theorem c1_witness :
    (seed_checkin_status 15 20 = CStatus.LATE ↔ (15 : ℤ) < 20) ∧
    checkin_save (some sampleGroup) (some samplePeriod) 3 4 (some 560) 560 none
        CStatus.ON_TIME =
      Except.ok (some (distance_from_location sampleGroup 3 4), CStatus.ON_TIME) :=
  ⟨(c1_theorem.1 15 20).1,
    (c1_theorem.2 sampleGroup samplePeriod 3 4 560 560 CStatus.ON_TIME (by norm_num)
      (by norm_num) (self_within sampleGroup)).1 (by decide)⟩

/-- Counterexample to C1 as stated: for the 09:00-17:00 window with 15-minute late
grace, an IN at 09:20 (minute 560, inside the geofence) is saved as ON_TIME by
`CheckIn.save`, whereas the claim requires LATE past 09:15 — the seeder's rule
(which does yield LATE for the same offset) disagrees with the save path. -/
theorem c1_counterexample :
    checkin_save (some sampleGroup) (some samplePeriod) 3 4 none 560 none CStatus.ON_TIME =
        Except.ok (some (distance_from_location sampleGroup 3 4), CStatus.ON_TIME) ∧
      seed_checkin_status 15 20 = CStatus.LATE ∧ CStatus.ON_TIME ≠ CStatus.LATE := by
  refine ⟨?_, by decide, by decide⟩
  have h0 : ¬ ((3:ℚ) = 0 ∨ (4:ℚ) = 0) := by norm_num
  have hw : is_within_radius sampleGroup 3 4 := self_within sampleGroup
  have hin : is_within_checkin_time samplePeriod 560 := by decide
  simp [checkin_save, h0, hw, hin]

/-- C6 (amended): the claimed OUT rule — EARLY before `end_time` minus the early
grace, LATE more than 60 minutes past `end_time`, ON_TIME otherwise — is the
status computation of the seeding command only. The save hook applies the same
classification to OUT rows as to IN rows (it never reads the declared type), so
an OUT after `end_time` on a row that carries a timestamp when the hook runs
(seeder-created rows) is saved INVALID_TIME — including the window
(end, end + 60] the claim calls ON_TIME. (View-created checkouts in that region
fail with an exception instead; see C10.) -/
theorem c6_theorem :
    (∀ (grace : ℕ) (v : ℤ),
        (seed_checkout_status grace v = CStatus.EARLY ↔ v < -(grace : ℤ)) ∧
        (seed_checkout_status grace v = CStatus.LATE ↔ -(grace : ℤ) ≤ v ∧ 60 < v) ∧
        (seed_checkout_status grace v = CStatus.ON_TIME ↔ -(grace : ℤ) ≤ v ∧ v ≤ 60)) ∧
    (∀ (g : AttendanceGroup) (p : Period) (latitude longitude : ℚ) (t now_t : ℕ)
        (s0 : CStatus),
        latitude ≠ 0 → longitude ≠ 0 → is_within_radius g latitude longitude →
        p.end_time < t →
        checkin_save (some g) (some p) latitude longitude (some t) now_t none s0 =
          Except.ok (some (distance_from_location g latitude longitude),
            CStatus.INVALID_TIME)) := by
  constructor
  · intro grace v
    refine ⟨?_, ?_, ?_⟩ <;>
      · unfold seed_checkout_status
        split_ifs with h1 h2 <;> simp_all
  · intro g p latitude longitude t now_t s0 hlat hlon hw hend
    have h0 : ¬ (latitude = 0 ∨ longitude = 0) := by tauto
    have hnot : ¬ is_within_checkin_time p t := by
      unfold is_within_checkin_time
      omega
    simp [checkin_save, h0, hw, hnot, hend]

/-- Witness for C6: an OUT 5 minutes past the end is ON_TIME for the seeder, while
the save hook marks the same 17:05 checkout (minute 1025, timestamp present)
INVALID_TIME. -/
theorem c6_witness :
    (seed_checkout_status 15 5 = CStatus.ON_TIME ↔ -(15 : ℤ) ≤ 5 ∧ (5 : ℤ) ≤ 60) ∧
    checkin_save (some sampleGroup) (some samplePeriod) 3 4 (some 1025) 1025 none
        CStatus.ON_TIME =
      Except.ok (some (distance_from_location sampleGroup 3 4), CStatus.INVALID_TIME) :=
  ⟨(c6_theorem.1 15 5).2.2,
    c6_theorem.2 sampleGroup samplePeriod 3 4 1025 1025 CStatus.ON_TIME (by norm_num)
      (by norm_num) (self_within sampleGroup) (by decide)⟩

/-- Counterexample to C6 as stated: an OUT at 17:05 (minute 1025) against the
09:00-17:00 window with 15-minute early grace is neither before 16:45 nor more
than 60 minutes past 17:00, so the claim requires ON_TIME (as the seeder indeed
computes for offset +5) — but the save hook, run on a row whose timestamp is
17:05 and whose incoming status is ON_TIME, overrides it to INVALID_TIME. -/
theorem c6_counterexample :
    checkin_save (some sampleGroup) (some samplePeriod) 3 4 (some 1025) 1025 none
        CStatus.ON_TIME =
      Except.ok (some (distance_from_location sampleGroup 3 4), CStatus.INVALID_TIME) ∧
      seed_checkout_status 15 5 = CStatus.ON_TIME ∧
      CStatus.INVALID_TIME ≠ CStatus.ON_TIME := by
  refine ⟨?_, by decide, by decide⟩
  have h0 : ¬ ((3:ℚ) = 0 ∨ (4:ℚ) = 0) := by norm_num
  have hw : is_within_radius sampleGroup 3 4 := self_within sampleGroup
  have hnot : ¬ is_within_checkin_time samplePeriod 1025 := by decide
  have hend : samplePeriod.end_time < 1025 := by decide
  simp [checkin_save, h0, hw, hnot, hend]

/-- C2 (amended): the save hook does mark any out-of-radius row INVALID_LOCATION
regardless of timestamp or resolved period (the location test short-circuits the
time checks), but a check-in submitted through the check-in view with
out-of-radius coordinates is rejected with an error response before any row is
created — out-of-radius events are persisted only when saved without that view
guard (for example check-outs). -/
theorem c2_theorem (events : List CheckInEvent) (user : ℕ) (g : AttendanceGroup)
    (latitude longitude : ℚ) (today weekday t newId : ℕ) (period : Option Period)
    (timestamp : Option ℕ) (now_t : ℕ) (s0 : CStatus)
    (hout : ¬ is_within_radius g latitude longitude) :
    check_in events user g latitude longitude today weekday t newId =
        ViewResult.error "You are not within the valid check-in area." ∧
      (latitude ≠ 0 → longitude ≠ 0 →
        checkin_save (some g) period latitude longitude timestamp now_t none s0 =
          Except.ok (some (distance_from_location g latitude longitude),
            CStatus.INVALID_LOCATION)) := by
  constructor
  · simp only [check_in]
    rw [if_pos hout]
  · intro h1 h2
    have h0 : ¬ (latitude = 0 ∨ longitude = 0) := by tauto
    simp [checkin_save, h0, hout]

/-- Witness for C2: a report from latitude 90 against the equatorial `farGroup`
(radius 100 m) is rejected by the view, and the save hook alone would have
flagged it INVALID_LOCATION. -/
theorem c2_witness :
    check_in [] 9 farGroup 90 50 3 1 600 1 =
        ViewResult.error "You are not within the valid check-in area." ∧
      ((90:ℚ) ≠ 0 → (50:ℚ) ≠ 0 →
        checkin_save (some farGroup) none 90 50 none 600 none CStatus.ON_TIME =
          Except.ok (some (distance_from_location farGroup 90 50),
            CStatus.INVALID_LOCATION)) :=
  c2_theorem [] 9 farGroup 90 50 3 1 600 1 none none 600 CStatus.ON_TIME
    (pole_not_within 2 100 50 [] (by norm_num))

/-- Counterexample to C2 as stated: a check-in submitted at latitude 90 against
`farGroup2` (center on the equator, radius 100 m) does not produce a persisted
CheckEvent with outcome INVALID_LOCATION — the view answers with an error
response and no event list is returned at all. -/
theorem c2_counterexample :
    check_in [] 9 farGroup2 90 50 3 1 600 1 =
        ViewResult.error "You are not within the valid check-in area." ∧
      ¬ ∃ evs, check_in [] 9 farGroup2 90 50 3 1 600 1 = ViewResult.ok evs := by
  have hout : ¬ is_within_radius farGroup2 90 50 := pole_not_within 3 100 50 [] (by norm_num)
  have herr : check_in [] 9 farGroup2 90 50 3 1 600 1 =
      ViewResult.error "You are not within the valid check-in area." := by
    simp only [check_in]
    rw [if_pos hout]
  refine ⟨herr, ?_⟩
  rintro ⟨evs, hok⟩
  rw [herr] at hok
  exact ViewResult.noConfusion hok

/-- C3 (amended): a check-in with a valid location for which no shift window
resolves is not flagged INVALID_TIME — the view still creates the row with
`period = None`, and the save hook then leaves the model default status ON_TIME
in place. -/
theorem c3_theorem (events : List CheckInEvent) (user : ℕ) (g : AttendanceGroup)
    (latitude longitude : ℚ) (today weekday t newId : ℕ)
    (hwithin : is_within_radius g latitude longitude)
    (hdup : ¬ ∃ e ∈ events, e.employee = user ∧ e.group.id = g.id ∧ e.day = today ∧
      e.type = CType.IN)
    (hres : find_applicable_period g.periods weekday t = none) :
    ∃ ev : CheckInEvent,
      check_in events user g latitude longitude today weekday t newId =
          ViewResult.ok (events ++ [ev]) ∧
        ev.status = CStatus.ON_TIME ∧ ev.period = none ∧ ev.type = CType.IN := by
  have hsave : ∃ d, checkin_save (some g) none latitude longitude none t none
      CStatus.ON_TIME = Except.ok (d, CStatus.ON_TIME) := by
    by_cases h0 : latitude = 0 ∨ longitude = 0
    · exact ⟨none, by simp [checkin_save, h0]⟩
    · exact ⟨some (distance_from_location g latitude longitude),
        by simp [checkin_save, h0, hwithin]⟩
  obtain ⟨d, hsave⟩ := hsave
  refine ⟨⟨newId, user, g, today, t, latitude, longitude, CType.IN, CStatus.ON_TIME,
    none, d⟩, ?_, rfl, rfl, rfl⟩
  simp only [check_in]
  rw [if_neg (not_not_intro hwithin), if_neg hdup, hres, hsave]

/-- Witness for C3: a valid-location check-in on a Saturday (weekday 6) against
`noPeriodGroup`, which has no periods at all, is created with status ON_TIME and
no period. -/
theorem c3_witness :
    is_within_radius noPeriodGroup 3 4 ∧
    ∃ ev : CheckInEvent,
      check_in [] 1 noPeriodGroup 3 4 3 6 600 1 = ViewResult.ok ([] ++ [ev]) ∧
        ev.status = CStatus.ON_TIME ∧ ev.period = none ∧ ev.type = CType.IN :=
  ⟨self_within noPeriodGroup,
    c3_theorem [] 1 noPeriodGroup 3 4 3 6 600 1 (self_within noPeriodGroup) (by simp) rfl⟩

/-- Counterexample to C3 as stated: a valid-location check-in at minute 600 on a
Saturday against `noPeriodGroup` (no resolvable window) is stored with outcome
ON_TIME, not the INVALID_TIME the claim requires. -/
theorem c3_counterexample :
    check_in [] 1 noPeriodGroup 3 4 3 6 600 1 =
        ViewResult.ok [⟨1, 1, noPeriodGroup, 3, 600, 3, 4, CType.IN, CStatus.ON_TIME, none,
          some (distance_from_location noPeriodGroup 3 4)⟩] ∧
      CStatus.ON_TIME ≠ CStatus.INVALID_TIME := by
  have hw : is_within_radius noPeriodGroup 3 4 := self_within noPeriodGroup
  have hdup : ¬ ∃ e ∈ ([] : List CheckInEvent), e.employee = 1 ∧
      e.group.id = noPeriodGroup.id ∧ e.day = 3 ∧ e.type = CType.IN := by simp
  have h0 : ¬ ((3:ℚ) = 0 ∨ (4:ℚ) = 0) := by norm_num
  constructor
  · simp only [check_in]
    rw [if_neg (not_not_intro hw), if_neg hdup]
    simp [find_applicable_period, checkin_save, h0, hw]
  · decide

/-! Helper lemmas about period resolution. -/

lemma find_first_min (l : List Period) (q : Period → Bool) (w : Period)
    (hsort : List.Sorted periodLE l) (hfind : l.find? q = some w) :
    ∀ p ∈ l, q p = true → w.start_time ≤ p.start_time := by
  induction l with
  | nil => simp at hfind
  | cons a rest ih =>
    rw [List.sorted_cons] at hsort
    by_cases ha : q a = true
    · rw [List.find?_cons_of_pos _ ha] at hfind
      injection hfind with hw
      subst hw
      intro p hp hq
      rcases List.mem_cons.mp hp with rfl | hp
      · exact Nat.le_refl _
      · exact hsort.1 p hp
    · rw [List.find?_cons_of_neg _ ha] at hfind
      intro p hp hq
      rcases List.mem_cons.mp hp with rfl | hp
      · exact absurd hq ha
      · exact ih hsort.2 hfind p hp hq

/-- C5: period resolution selects only periods that are active and applicable to
the current ISO weekday and whose check-in window `[start_time - grace, end_time]`
(wrapped to a time of day, as `is_within_checkin_time` computes it) contains the
current time of day; among several matching periods the one with the earliest
`start_time` is returned, and when none matches the result is none. -/
theorem c5_theorem (periods : List Period) (weekday t : ℕ) :
    (∀ w, find_applicable_period periods weekday t = some w →
        w ∈ periods ∧ w.is_active = true ∧ weekday ∈ w.weekdays ∧
          is_within_checkin_time w t ∧
          ∀ p ∈ periods, p.is_active = true → weekday ∈ p.weekdays →
            is_within_checkin_time p t → w.start_time ≤ p.start_time) ∧
    (find_applicable_period periods weekday t = none →
        ∀ p ∈ periods, ¬ (p.is_active = true ∧ weekday ∈ p.weekdays ∧
          is_within_checkin_time p t)) := by
  have hmem : ∀ p : Period,
      p ∈ List.insertionSort periodLE (periods.filter (fun p => p.is_active)) ↔
        p ∈ periods ∧ p.is_active = true := by
    intro p
    rw [(List.perm_insertionSort periodLE _).mem_iff, List.mem_filter]
  have hsort : List.Sorted periodLE
      (List.insertionSort periodLE (periods.filter (fun p => p.is_active))) :=
    List.sorted_insertionSort periodLE _
  constructor
  · intro w hw
    simp only [find_applicable_period] at hw
    have hq := List.find?_some hw
    have hq' : weekday ∈ w.weekdays ∧ is_within_checkin_time w t := of_decide_eq_true hq
    have hwl := List.mem_of_find?_eq_some hw
    have hwp := (hmem w).mp hwl
    refine ⟨hwp.1, hwp.2, hq'.1, hq'.2, ?_⟩
    intro p hp hact hwd hin
    exact find_first_min _ _ w hsort hw p ((hmem p).mpr ⟨hp, hact⟩)
      (decide_eq_true ⟨hwd, hin⟩)
  · intro hnone p hp hcon
    simp only [find_applicable_period] at hnone
    exact List.find?_eq_none.mp hnone p ((hmem p).mpr ⟨hp, hcon.1⟩)
      (decide_eq_true ⟨hcon.2.1, hcon.2.2⟩)

/-- Witness for C5: at minute 605 on a Monday both the 09:00 and the 10:00 period
match, and resolution returns the earlier-starting 09:00 period together with all
the properties C5 claims of it. -/
theorem c5_witness :
    samplePeriod ∈ [samplePeriod, samplePeriod2] ∧ samplePeriod.is_active = true ∧
      (1 : ℕ) ∈ samplePeriod.weekdays ∧ is_within_checkin_time samplePeriod 605 ∧
      ∀ p ∈ [samplePeriod, samplePeriod2], p.is_active = true → (1 : ℕ) ∈ p.weekdays →
        is_within_checkin_time p 605 → samplePeriod.start_time ≤ p.start_time :=
  (c5_theorem [samplePeriod, samplePeriod2] 1 605).1 samplePeriod (by decide)

/-! Helper lemmas about the duplicate check-in count. -/

lemma countIN_append (l1 l2 : List CheckInEvent) (emp gid day : ℕ) :
    countIN (l1 ++ l2) emp gid day = countIN l1 emp gid day + countIN l2 emp gid day := by
  simp [countIN, List.filter_append]

lemma countIN_eq_zero (events : List CheckInEvent) (emp gid day : ℕ)
    (h : ¬ ∃ e ∈ events, e.employee = emp ∧ e.group.id = gid ∧ e.day = day ∧
      e.type = CType.IN) :
    countIN events emp gid day = 0 := by
  simp only [countIN, List.length_eq_zero, List.filter_eq_nil_iff]
  intro e he hd
  exact h ⟨e, he, of_decide_eq_true hd⟩

lemma countIN_singleton_le (ev : CheckInEvent) (emp gid day : ℕ) :
    countIN [ev] emp gid day ≤ 1 := by
  have h := List.length_filter_le
    (fun e : CheckInEvent => decide (e.employee = emp ∧ e.group.id = gid ∧ e.day = day ∧
      e.type = CType.IN)) [ev]
  simpa [countIN] using h

lemma countIN_singleton_ne (ev : CheckInEvent) (emp gid day : ℕ)
    (h : ¬ (ev.employee = emp ∧ ev.group.id = gid ∧ ev.day = day ∧ ev.type = CType.IN)) :
    countIN [ev] emp gid day = 0 := by
  simp [countIN, List.filter_cons, decide_eq_true_eq, h]

lemma at_most_one_checkin_append (events : List CheckInEvent) (ev : CheckInEvent)
    (hinv : at_most_one_checkin events)
    (hnew : countIN events ev.employee ev.group.id ev.day = 0) :
    at_most_one_checkin (events ++ [ev]) := by
  intro emp gid day
  rw [countIN_append]
  by_cases hm : ev.employee = emp ∧ ev.group.id = gid ∧ ev.day = day ∧ ev.type = CType.IN
  · obtain ⟨h1, h2, h3, _⟩ := hm
    subst h1
    subst h2
    subst h3
    rw [hnew]
    simpa using countIN_singleton_le ev _ _ _
  · rw [countIN_singleton_ne ev emp gid day hm]
    simpa using hinv emp gid day

/-- C7: a second IN submission for an (employee, group, day) key that already has
a stored CHECK_IN row is answered with an error by the check-in view before any
row is created, and consequently a successful check-in preserves the
at-most-one-CHECK_IN-per-(employee, group, day) invariant of the stored state. -/
theorem c7_theorem (events : List CheckInEvent) (user : ℕ) (g : AttendanceGroup)
    (latitude longitude : ℚ) (today weekday t newId : ℕ) :
    ((∃ e ∈ events, e.employee = user ∧ e.group.id = g.id ∧ e.day = today ∧
        e.type = CType.IN) →
      ∃ msg, check_in events user g latitude longitude today weekday t newId =
        ViewResult.error msg) ∧
    (∀ newEvents, at_most_one_checkin events →
      check_in events user g latitude longitude today weekday t newId =
        ViewResult.ok newEvents →
      at_most_one_checkin newEvents) := by
  constructor
  · intro hdup
    by_cases hw : is_within_radius g latitude longitude
    · refine ⟨"You have already checked in today.", ?_⟩
      simp only [check_in]
      rw [if_neg (not_not_intro hw), if_pos hdup]
    · refine ⟨"You are not within the valid check-in area.", ?_⟩
      simp only [check_in]
      rw [if_pos hw]
  · intro newEvents hinv hok
    simp only [check_in] at hok
    split_ifs at hok with h1 h2
    cases hcs : checkin_save (some g) (find_applicable_period g.periods weekday t)
        latitude longitude none t none CStatus.ON_TIME with
    | error msg =>
      rw [hcs] at hok
      exact absurd hok (by simp)
    | ok saved =>
      rw [hcs] at hok
      simp only [ViewResult.ok.injEq] at hok
      subst hok
      exact at_most_one_checkin_append events _ hinv (countIN_eq_zero _ _ _ _ h2)

/-- Witness for C7: with a CHECK_IN row already stored for employee 1 in
`sampleGroup` on day 3, a second submission for the same key is rejected. -/
theorem c7_witness :
    (∃ e ∈ [sampleEventIN], e.employee = 1 ∧ e.group.id = sampleGroup.id ∧ e.day = 3 ∧
      e.type = CType.IN) ∧
    ∃ msg, check_in [sampleEventIN] 1 sampleGroup 3 4 3 1 600 2 = ViewResult.error msg :=
  ⟨by decide, (c7_theorem [sampleEventIN] 1 sampleGroup 3 4 3 1 600 2).1 (by decide)⟩

/-- C10 (amended): the check-out view applies no geofence rejection, no
duplicate-checkout check and no same-day verification — the original is looked up
by primary key, owner and type CHECK_IN only, over arbitrary stored events,
coordinates and submission day, and an OUT row is created whenever the save hook
completes: when a coordinate is zero (guard short-circuit), when the location is
outside the geofence (stored INVALID_LOCATION), when the copied period is absent,
and when the current time lies inside the copied period's check-in window. But
when a period is attached and the current time is outside its
`[start_time - grace, end_time]` window, the hook classifies from the row's
still-unset `auto_now_add` timestamp, raises `AttributeError`, and the view
answers `Check-out failed: ...` with no row created — so such checkouts (for
example any ordinary one after shift end) are rejected. -/
theorem c10_theorem (events : List CheckInEvent) (user checkin_id : ℕ)
    (latitude longitude : ℚ) (today t newId : ℕ) (original : CheckInEvent)
    (hfind : events.find?
        (fun e => decide (e.id = checkin_id ∧ e.employee = user ∧ e.type = CType.IN)) =
      some original) :
    ((latitude = 0 ∨ longitude = 0) →
      check_out events user checkin_id latitude longitude today t newId =
        ViewResult.ok (events ++ [⟨newId, user, original.group, today, t, latitude,
          longitude, CType.OUT, CStatus.ON_TIME, original.period, none⟩])) ∧
    (latitude ≠ 0 → longitude ≠ 0 →
      ¬ is_within_radius original.group latitude longitude →
      check_out events user checkin_id latitude longitude today t newId =
        ViewResult.ok (events ++ [⟨newId, user, original.group, today, t, latitude,
          longitude, CType.OUT, CStatus.INVALID_LOCATION, original.period,
          some (distance_from_location original.group latitude longitude)⟩])) ∧
    (latitude ≠ 0 → longitude ≠ 0 →
      is_within_radius original.group latitude longitude → original.period = none →
      check_out events user checkin_id latitude longitude today t newId =
        ViewResult.ok (events ++ [⟨newId, user, original.group, today, t, latitude,
          longitude, CType.OUT, CStatus.ON_TIME, original.period,
          some (distance_from_location original.group latitude longitude)⟩])) ∧
    (∀ p, latitude ≠ 0 → longitude ≠ 0 →
      is_within_radius original.group latitude longitude → original.period = some p →
      is_within_checkin_time p t →
      check_out events user checkin_id latitude longitude today t newId =
        ViewResult.ok (events ++ [⟨newId, user, original.group, today, t, latitude,
          longitude, CType.OUT, CStatus.ON_TIME, original.period,
          some (distance_from_location original.group latitude longitude)⟩])) ∧
    (∀ p, latitude ≠ 0 → longitude ≠ 0 →
      is_within_radius original.group latitude longitude → original.period = some p →
      ¬ is_within_checkin_time p t →
      check_out events user checkin_id latitude longitude today t newId =
        ViewResult.error ("Check-out failed: " ++ timestampNoneError)) := by
  have hco : check_out events user checkin_id latitude longitude today t newId =
      match checkin_save (some original.group) original.period latitude longitude none t
          none CStatus.ON_TIME with
      | Except.error msg => ViewResult.error ("Check-out failed: " ++ msg)
      | Except.ok saved =>
        ViewResult.ok (events ++ [⟨newId, user, original.group, today, t, latitude,
          longitude, CType.OUT, saved.2, original.period, saved.1⟩]) := by
    simp only [check_out]
    rw [hfind]
  refine ⟨?_, ?_, ?_, ?_, ?_⟩
  · intro h0
    have hs : checkin_save (some original.group) original.period latitude longitude none t
        none CStatus.ON_TIME = Except.ok (none, CStatus.ON_TIME) := by
      simp only [checkin_save]
      rw [if_pos h0]
    rw [hco, hs]
  · intro h1 h2 hout
    have h0 : ¬ (latitude = 0 ∨ longitude = 0) := by tauto
    have hs : checkin_save (some original.group) original.period latitude longitude none t
        none CStatus.ON_TIME =
        Except.ok (some (distance_from_location original.group latitude longitude),
          CStatus.INVALID_LOCATION) := by
      simp [checkin_save, h0, hout]
    rw [hco, hs]
  · intro h1 h2 hw hper
    have h0 : ¬ (latitude = 0 ∨ longitude = 0) := by tauto
    have hs : checkin_save (some original.group) original.period latitude longitude none t
        none CStatus.ON_TIME =
        Except.ok (some (distance_from_location original.group latitude longitude),
          CStatus.ON_TIME) := by
      rw [hper]
      simp [checkin_save, h0, hw]
    rw [hco, hs]
  · intro p h1 h2 hw hper hin
    have h0 : ¬ (latitude = 0 ∨ longitude = 0) := by tauto
    have hs : checkin_save (some original.group) original.period latitude longitude none t
        none CStatus.ON_TIME =
        Except.ok (some (distance_from_location original.group latitude longitude),
          CStatus.ON_TIME) := by
      rw [hper]
      simp [checkin_save, h0, hw, hin]
    rw [hco, hs]
  · intro p h1 h2 hw hper hnot
    have h0 : ¬ (latitude = 0 ∨ longitude = 0) := by tauto
    have hs : checkin_save (some original.group) original.period latitude longitude none t
        none CStatus.ON_TIME = Except.error timestampNoneError := by
      rw [hper]
      simp [checkin_save, h0, hw, hnot]
    rw [hco, hs]

/-- Witness for C10: against the old-date check-in carrying the 09:00-17:00
period, a checkout at 15:10 (minute 910, inside the window) on a later day
succeeds and appends a CHECK_OUT row, while a checkout at 17:05 (minute 1025,
past the window) is answered `Check-out failed` with no row created. -/
theorem c10_witness :
    check_out [oldEventWithPeriod] 1 1 3 4 5 910 3 =
        ViewResult.ok ([oldEventWithPeriod] ++ [⟨3, 1, oldEventWithPeriod.group, 5, 910,
          3, 4, CType.OUT, CStatus.ON_TIME, oldEventWithPeriod.period,
          some (distance_from_location oldEventWithPeriod.group 3 4)⟩]) ∧
      check_out [oldEventWithPeriod] 1 1 3 4 5 1025 2 =
        ViewResult.error ("Check-out failed: " ++ timestampNoneError) :=
  ⟨(c10_theorem [oldEventWithPeriod] 1 1 3 4 5 910 3 oldEventWithPeriod rfl).2.2.2.1
      samplePeriod (by norm_num) (by norm_num) (self_within sampleGroup) rfl (by decide),
    (c10_theorem [oldEventWithPeriod] 1 1 3 4 5 1025 2 oldEventWithPeriod rfl).2.2.2.2
      samplePeriod (by norm_num) (by norm_num) (self_within sampleGroup) rfl (by decide)⟩

/-- Counterexample to C10 as stated: a check-out at 17:05 (minute 1025) against
the stored check-in whose copied period is the 09:00-17:00 window, from a valid
in-radius coordinate, is rejected — the view answers `Check-out failed` and no OUT
row is created, because the save hook dereferences the still-unset timestamp. -/
theorem c10_counterexample :
    check_out [oldEventWithPeriod] 1 1 3 4 5 1025 2 =
        ViewResult.error ("Check-out failed: " ++ timestampNoneError) ∧
      ¬ ∃ evs, check_out [oldEventWithPeriod] 1 1 3 4 5 1025 2 = ViewResult.ok evs := by
  have h0 : ¬ ((3:ℚ) = 0 ∨ (4:ℚ) = 0) := by norm_num
  have hw : is_within_radius sampleGroup 3 4 := self_within sampleGroup
  have hnot : ¬ is_within_checkin_time samplePeriod 1025 := by decide
  have hs : checkin_save (some sampleGroup) (some samplePeriod) 3 4 none 1025 none
      CStatus.ON_TIME = Except.error timestampNoneError := by
    simp [checkin_save, h0, hw, hnot]
  have herr : check_out [oldEventWithPeriod] 1 1 3 4 5 1025 2 =
      ViewResult.error ("Check-out failed: " ++ timestampNoneError) := by
    have step : check_out [oldEventWithPeriod] 1 1 3 4 5 1025 2 =
        match checkin_save (some sampleGroup) (some samplePeriod) 3 4 none 1025 none
            CStatus.ON_TIME with
        | Except.error msg => ViewResult.error ("Check-out failed: " ++ msg)
        | Except.ok saved =>
          ViewResult.ok ([oldEventWithPeriod] ++ [⟨2, 1, sampleGroup, 5, 1025, 3, 4,
            CType.OUT, saved.2, some samplePeriod, saved.1⟩]) := rfl
    rw [step, hs]
  refine ⟨herr, ?_⟩
  rintro ⟨evs, hok⟩
  rw [herr] at hok
  exact ViewResult.noConfusion hok

/-! Helper lemmas for the dashboard aggregation. -/

lemma pairTerm_cons_cons (a b : DashEvent) (rest : List DashEvent) (i : ℕ) :
    pairTerm (a :: b :: rest) (i + 1) = pairTerm rest i := by
  simp only [pairTerm, show 2 * (i + 1) = 2 * i + 1 + 1 from by ring,
    List.get?_cons_succ]

lemma pair_hours_eq_sum_aux :
    ∀ (n : ℕ) (events : List DashEvent), events.length ≤ n →
      pair_hours events = ∑ i ∈ Finset.range (events.length / 2), pairTerm events i := by
  intro n
  induction n with
  | zero =>
    intro events h
    have hnil : events = [] := List.length_eq_zero.mp (Nat.le_zero.mp h)
    subst hnil
    simp [pair_hours]
  | succ n ih =>
    intro events h
    match events with
    | [] => simp [pair_hours]
    | [a] => simp [pair_hours]
    | a :: b :: rest =>
      have hrest : rest.length ≤ n := by
        simp only [List.length_cons] at h
        omega
      have hgo : pair_hours (a :: b :: rest) =
          (if a.type = CType.IN ∧ b.type = CType.OUT
            then (b.timestamp - a.timestamp) / 3600 else 0) + pair_hours rest := rfl
      have h0 : pairTerm (a :: b :: rest) 0 =
          (if a.type = CType.IN ∧ b.type = CType.OUT
            then (b.timestamp - a.timestamp) / 3600 else 0) := by
        simp [pairTerm]
      rw [hgo, ih rest hrest]
      simp only [List.length_cons]
      have hdiv : (rest.length + 1 + 1) / 2 = rest.length / 2 + 1 := by omega
      rw [hdiv, Finset.sum_range_succ']
      simp only [pairTerm_cons_cons]
      rw [h0]
      exact add_comm _ _

/-- C4 (amended): the day's total hours is the sum over adjacent positional pairs
(indices 2i and 2i+1) of the timestamp-ordered event list of the pair's duration
in hours whenever the first element has declared type IN and the second type OUT.
The outcome status is never inspected — events with INVALID_LOCATION or
INVALID_TIME anchor pairs and contribute hours like any others — and a trailing
unpaired event contributes zero. -/
theorem c4_theorem (events : List DashEvent) :
    today_hours events = ∑ i ∈ Finset.range (events.length / 2), pairTerm events i := by
  by_cases h : 2 ≤ events.length
  · simp only [today_hours]
    rw [if_pos h]
    exact pair_hours_eq_sum_aux events.length events le_rfl
  · simp only [today_hours]
    rw [if_neg h]
    have hz : events.length / 2 = 0 := by omega
    rw [hz]
    simp

/-- Counterexample to C4 as stated: a day consisting of an IN flagged
INVALID_LOCATION at second 0 followed by a valid OUT at second 3600 is credited
1 hour by the dashboard, while the claim's aggregation (invalid events contribute
zero and do not anchor a pair) yields 0 hours. -/
theorem c4_counterexample :
    today_hours [dashInvalidIN, dashValidOUT] = 1 ∧
      spec_total_hours [dashInvalidIN, dashValidOUT] = 0 ∧ (1 : ℚ) ≠ 0 := by
  refine ⟨?_, ?_, by norm_num⟩
  · norm_num [today_hours, pair_hours, dashInvalidIN, dashValidOUT]
  · norm_num [spec_total_hours, spec_pair_go, valid_event, dashInvalidIN, dashValidOUT]

end Atten
